import Mathlib

/-!
Shallow embedding of the propagated-transactions library
(src/lib/propagated-transaction.js, src/lib/isolated-transaction.js,
src/lib/transaction-error.js).

Execution of a controller method is modelled as a state-passing function
from the current AsyncLocalStorage binding (the store of the logical call
chain) to a settled outcome, the binding after the call, and the list of
Runner invocations performed, in order.  Runner behaviour is a parameter
(structure Runner), so theorems quantify over every possible Runner.
-/

/-- Opaque transactional resource handle; the field models reference
identity (the controller never inspects its contents). -/
structure Connection where
  id : Nat
deriving DecidableEq

/-- Embeds class TransactionError from src/lib/transaction-error.js: an
Error carrying a message. -/
structure TransactionError where
  message : String
deriving DecidableEq

/-- Embeds the static factory TransactionError.NotInContext from
src/lib/transaction-error.js. -/
def TransactionError.NotInContext : TransactionError :=
  { message := "You are trying to commit/rollback the transaction outside of AsyncLocalStorage context" }

/-- A thrown JavaScript value: either a TransactionError produced by the
library, or an arbitrary user/runner error identified by a code. -/
inductive JsError where
  | transaction (err : TransactionError)
  | user (code : Nat)
deriving DecidableEq

/-- One invocation of the external Runner, with the argument actually
passed (none models a call with no argument / undefined). -/
inductive RunnerCall where
  | start (isolationLevel : Option String)
  | commit (connection : Option Connection)
  | rollback (connection : Option Connection)
deriving DecidableEq

/-- Recognises a commit call in a trace. -/
def RunnerCall.isCommit : RunnerCall → Bool
  | RunnerCall.commit _ => true
  | _ => false

/-- Recognises a rollback call in a trace. -/
def RunnerCall.isRollback : RunnerCall → Bool
  | RunnerCall.rollback _ => true
  | _ => false

/-- Recognises a start call in a trace. -/
def RunnerCall.isStart : RunnerCall → Bool
  | RunnerCall.start _ => true
  | _ => false

/-- Behaviour of an external ITransactionRunner implementation: what each
of its operations returns (or throws) for each argument. -/
structure Runner where
  startResult : Option String → Except JsError Connection
  commitResult : Option Connection → Except JsError Unit
  rollbackResult : Option Connection → Except JsError Unit

/-- The AsyncLocalStorage binding of the current logical call chain:
some connection, or none when outside every context. -/
abbrev Store := Option Connection

/-- An effectful computation: given the current binding, produce the
settled outcome, the binding afterwards, and the Runner calls made. -/
abbrev Eff (α : Type) := Store → Except JsError α × Store × List RunnerCall

/-- A computation that resolves with a value, touching nothing. -/
def Eff.pure {α : Type} (a : α) : Eff α := fun s => (Except.ok a, s, [])

/-- Sequencing: await the first computation; on resolution continue with
the second, on rejection propagate the error (JavaScript await). -/
def Eff.bind {α β : Type} (m : Eff α) (f : α → Eff β) : Eff β := fun s =>
  match m s with
  | (Except.ok a, s1, t1) =>
    let o := f a s1
    (o.1, o.2.1, t1 ++ o.2.2)
  | (Except.error e, s1, t1) => (Except.error e, s1, t1)

/-- A computation that throws. -/
def Eff.throw {α : Type} (e : JsError) : Eff α := fun s => (Except.error e, s, [])

/-- JavaScript try/catch: on rejection of the body, run the handler. -/
def Eff.tryCatch {α : Type} (m : Eff α) (h : JsError → Eff α) : Eff α := fun s =>
  match m s with
  | (Except.ok a, s1, t1) => (Except.ok a, s1, t1)
  | (Except.error e, s1, t1) =>
    let o := h e s1
    (o.1, o.2.1, t1 ++ o.2.2)

/-- The settled outcome of a computation from a given binding. -/
def Eff.result {α : Type} (m : Eff α) (s : Store) : Except JsError α := (m s).1

/-- The binding after a computation settles. -/
def Eff.finalStore {α : Type} (m : Eff α) (s : Store) : Store := (m s).2.1

/-- The Runner calls a computation performs from a given binding. -/
def Eff.trace {α : Type} (m : Eff α) (s : Store) : List RunnerCall := (m s).2.2

/-- AsyncLocalStorage.getStore(): read the binding of the current chain. -/
def alsGetStore : Eff Store := fun s => (Except.ok s, s, [])

/-- AsyncLocalStorage.run(store, callback): execute the callback with the
binding set to the store for its dynamic extent, restore the previous
binding when it settles, and pass its outcome through unmodified. -/
def alsRun {α : Type} (store : Connection) (callback : Eff α) : Eff α := fun s =>
  let o := callback (some store)
  (o.1, s, o.2.2)

/-- Invoke runner.start with the given argument, recording the call. -/
def Runner.callStart (r : Runner) (lvl : Option String) : Eff Connection := fun s =>
  (r.startResult lvl, s, [RunnerCall.start lvl])

/-- Invoke runner.commit with the given argument, recording the call. -/
def Runner.callCommit (r : Runner) (c : Option Connection) : Eff Unit := fun s =>
  (r.commitResult c, s, [RunnerCall.commit c])

/-- Invoke runner.rollback with the given argument, recording the call. -/
def Runner.callRollback (r : Runner) (c : Option Connection) : Eff Unit := fun s =>
  (r.rollbackResult c, s, [RunnerCall.rollback c])

/-- Embeds the static string constants of class IsolationLevels. -/
def IsolationLevels.Serializable : String := "SERIALIZABLE"

/-- Embeds the static string constant IsolationLevels.ReadCommitted. -/
def IsolationLevels.ReadCommitted : String := "READ COMMITTED"

/-- Embeds the static string constant IsolationLevels.RepeatableRead. -/
def IsolationLevels.RepeatableRead : String := "REPEATABLE READ"

/-- Embeds the static string constant IsolationLevels.ReadUncommitted. -/
def IsolationLevels.ReadUncommitted : String := "READ UNCOMMITTED"

/-- The default parameter value of PropagatedTransaction.start. -/
def PropagatedTransaction.defaultIsolationLevel : String := "READ COMMITTED"

/-- Embeds the connection getter: return this.als.getStore(). -/
def PropagatedTransaction.connection : Eff Store := alsGetStore

/-- Embeds async start(isolationLevel = READ COMMITTED):
return this.connection || this.runner.start(isolationLevel).  The
argument is an Option to model passing no argument (the JS default
parameter substitutes the default string). -/
def PropagatedTransaction.start (r : Runner) (isolationLevelArg : Option String) : Eff Connection :=
  let isolationLevel := isolationLevelArg.getD PropagatedTransaction.defaultIsolationLevel
  Eff.bind PropagatedTransaction.connection fun c =>
    match c with
    | some conn => Eff.pure conn
    | none => r.callStart (some isolationLevel)

/-- Embeds async commit(): throw TransactionError.NotInContext() when no
connection is bound, else return this.runner.commit(this.connection). -/
def PropagatedTransaction.commit (r : Runner) : Eff Unit :=
  Eff.bind PropagatedTransaction.connection fun c =>
    match c with
    | none => Eff.throw (JsError.transaction TransactionError.NotInContext)
    | some conn => r.callCommit (some conn)

/-- Embeds async rollback(): throw TransactionError.NotInContext() when no
connection is bound, else return this.runner.rollback(this.connection). -/
def PropagatedTransaction.rollback (r : Runner) : Eff Unit :=
  Eff.bind PropagatedTransaction.connection fun c =>
    match c with
    | none => Eff.throw (JsError.transaction TransactionError.NotInContext)
    | some conn => r.callRollback (some conn)

/-- Embeds async run(connection, callback):
return this.als.run(connection, callback). -/
def PropagatedTransaction.run {α : Type} (connection : Connection) (callback : Eff α) : Eff α :=
  alsRun connection callback

/-- Embeds IsolatedTransaction async start(): return this.runner.start()
(no argument is passed). -/
def IsolatedTransaction.start (r : Runner) : Eff Connection :=
  r.callStart none

/-- Embeds IsolatedTransaction async commit(): return this.runner.commit()
(unconditional; no argument is passed; the binding is not read). -/
def IsolatedTransaction.commit (r : Runner) : Eff Unit :=
  r.callCommit none

/-- Embeds IsolatedTransaction async rollback():
return this.runner.rollback() (unconditional; no argument is passed). -/
def IsolatedTransaction.rollback (r : Runner) : Eff Unit :=
  r.callRollback none

/-- Embeds IsolatedTransaction async run(store, callback):
return this.als.run(store, callback). -/
def IsolatedTransaction.run {α : Type} (store : Connection) (callback : Eff α) : Eff α :=
  alsRun store callback

/-- A constructed PropagatedTransaction object; objId models the identity
of the JavaScript object allocated by new, alsId the identity of the
AsyncLocalStorage it holds, runnerId the runner reference it holds. -/
structure PropagatedTransactionObj where
  objId : Nat
  runnerId : Nat
  alsId : Nat
deriving DecidableEq

/-- Embeds the PropagatedTransaction constructor together with the static
field instance: when the static field is set, the stored object is
returned and the arguments are ignored; otherwise a fresh object is built
from the arguments (a passed als, or a newly allocated one) and stored.
The pair returned is (constructed object, static field afterwards). -/
def PropagatedTransaction.construct (instanceVar : Option PropagatedTransactionObj)
    (freshObjId : Nat) (runnerId : Nat) (alsArg : Option Nat) (freshAlsId : Nat) :
    PropagatedTransactionObj × Option PropagatedTransactionObj :=
  match instanceVar with
  | some inst => (inst, some inst)
  | none =>
    let obj : PropagatedTransactionObj :=
      { objId := freshObjId, runnerId := runnerId, alsId := alsArg.getD freshAlsId }
    (obj, some obj)

/-- A constructed IsolatedTransaction object (src/lib version), with the
same identity modelling as PropagatedTransactionObj. -/
structure IsolatedTransactionObj where
  objId : Nat
  runnerId : Nat
  alsId : Nat
deriving DecidableEq

/-- Embeds the IsolatedTransaction constructor from
src/lib/isolated-transaction.js: it has no static instance field and
always builds a fresh object from its arguments. -/
def IsolatedTransaction.construct (freshObjId : Nat) (runnerId : Nat) (alsArg : Option Nat)
    (freshAlsId : Nat) : IsolatedTransactionObj :=
  { objId := freshObjId, runnerId := runnerId, alsId := alsArg.getD freshAlsId }

/-- Business/data-layer work inside a callback: it may read the ambient
binding and resolve or reject, but performs no Runner lifecycle call
(repositories only execute queries on the bound connection). -/
def userWork {α : Type} (work : Store → Except JsError α) : Eff α := fun s => (work s, s, [])

/-- The documented success usage (README steps 3 to 5, first test case):
obtain a connection via start, then run a callback that performs its work
and then calls the controller commit. -/
def successScript {α : Type} (r : Runner) (lvl : Option String)
    (work : Store → Except JsError α) : Eff α :=
  Eff.bind (PropagatedTransaction.start r lvl) fun conn =>
    PropagatedTransaction.run conn
      (Eff.bind (userWork work) fun x =>
        Eff.bind (PropagatedTransaction.commit r) fun _ =>
          Eff.pure x)

/-- The documented failure usage with rethrow: the callback tries its work
plus commit, and on failure calls the controller rollback and rethrows the
original error. -/
def failureScript {α : Type} (r : Runner) (lvl : Option String)
    (work : Store → Except JsError α) : Eff α :=
  Eff.bind (PropagatedTransaction.start r lvl) fun conn =>
    PropagatedTransaction.run conn
      (Eff.tryCatch
        (Eff.bind (userWork work) fun x =>
          Eff.bind (PropagatedTransaction.commit r) fun _ =>
            Eff.pure x)
        (fun e =>
          Eff.bind (PropagatedTransaction.rollback r) fun _ =>
            Eff.throw e))

/-- A concrete connection used by concrete evaluations. -/
def conn0 : Connection := { id := 0 }

/-- A second concrete connection. -/
def conn1 : Connection := { id := 1 }

/-- A third concrete connection, distinct from conn1. -/
def conn2 : Connection := { id := 2 }

/-- A concrete Runner whose operations all succeed and whose start always
returns conn0. -/
def okRunner : Runner :=
  { startResult := fun _ => Except.ok conn0
  , commitResult := fun _ => Except.ok ()
  , rollbackResult := fun _ => Except.ok () }

/-- Concrete work that resolves with 42 regardless of the binding. -/
def work42 : Store → Except JsError Nat := fun _ => Except.ok 42

/-- Concrete work that rejects with user error 7. -/
def workFail : Store → Except JsError Nat := fun _ => Except.error (JsError.user 7)

/-- C6: IsolatedTransaction.run is a pure passthrough to the context run:
from any prior binding it executes the callback with the store bound,
returns the callback settled outcome unchanged (errors included), restores
the prior binding, and its Runner-call trace is exactly the callback own
trace, so it performs no commit or rollback call of its own. -/
theorem isolated_run_passthrough {α : Type} (store : Connection) (cb : Eff α) (s : Store) :
    IsolatedTransaction.run store cb s = ((cb (some store)).1, s, (cb (some store)).2.2) := rfl

/-- C9: for every context state, IsolatedTransaction.commit and
IsolatedTransaction.rollback unconditionally invoke runner.commit and
runner.rollback passing no connection argument; the outcome and the call
made are independent of the binding, which is never read. -/
theorem isolated_commit_rollback_ignore_binding (r : Runner) (s : Store) :
    IsolatedTransaction.commit r s = (r.commitResult none, s, [RunnerCall.commit none])
    ∧ IsolatedTransaction.rollback r s = (r.rollbackResult none, s, [RunnerCall.rollback none]) :=
  ⟨rfl, rfl⟩

/-- C5: the isolation vocabulary is exactly the four fixed strings, and
when no connection is bound PropagatedTransaction.start invokes
runner.start with exactly the given string, defaulting to READ COMMITTED
when no level is passed. -/
theorem isolation_levels_mapping (r : Runner) (lvlArg : Option String) :
    IsolationLevels.ReadUncommitted = "READ UNCOMMITTED"
    ∧ IsolationLevels.ReadCommitted = "READ COMMITTED"
    ∧ IsolationLevels.RepeatableRead = "REPEATABLE READ"
    ∧ IsolationLevels.Serializable = "SERIALIZABLE"
    ∧ PropagatedTransaction.start r lvlArg none
        = (r.startResult (some (lvlArg.getD "READ COMMITTED")), none,
           [RunnerCall.start (some (lvlArg.getD "READ COMMITTED"))])
    ∧ PropagatedTransaction.start r none none
        = (r.startResult (some "READ COMMITTED"), none,
           [RunnerCall.start (some "READ COMMITTED")]) :=
  ⟨rfl, rfl, rfl, rfl, rfl, rfl⟩

/-- C10: PropagatedTransaction.start, commit and rollback leave the
binding unchanged (in particular it is not cleared after commit or
rollback), the accessor simply reads the binding, and run is the only
operation that changes it: the callback executes with the argument bound
and the prior binding is restored once it settles. -/
theorem propagated_operations_preserve_binding {α : Type} (r : Runner) (lvl : Option String)
    (s : Store) (c : Connection) (cb : Eff α) :
    (PropagatedTransaction.start r lvl).finalStore s = s
    ∧ (PropagatedTransaction.commit r).finalStore s = s
    ∧ (PropagatedTransaction.rollback r).finalStore s = s
    ∧ PropagatedTransaction.connection s = (Except.ok s, s, [])
    ∧ PropagatedTransaction.run c cb s = ((cb (some c)).1, s, (cb (some c)).2.2) := by
  refine ⟨?_, ?_, ?_, rfl, rfl⟩ <;> cases s <;> rfl

/-- C3 counterexample: IsolatedTransaction.commit invoked with no bound
connection does not fail with NotInContext and does perform a Runner
call: with the all-succeeding runner it resolves and the trace holds one
commit call with no connection argument. -/
theorem isolated_commit_no_context_counterexample :
    IsolatedTransaction.commit okRunner none = (Except.ok (), none, [RunnerCall.commit none]) := rfl

/-- C3 (amended): for the Propagated variant, commit and rollback with no
bound connection throw TransactionError.NotInContext and perform no
Runner call, and with a bound connection delegate to runner.commit and
runner.rollback with exactly that connection; the Isolated variant commit
and rollback instead delegate unconditionally, passing no connection and
never raising NotInContext. -/
theorem commit_rollback_context_behaviour (r : Runner) :
    PropagatedTransaction.commit r none
      = (Except.error (JsError.transaction TransactionError.NotInContext), none, [])
    ∧ PropagatedTransaction.rollback r none
      = (Except.error (JsError.transaction TransactionError.NotInContext), none, [])
    ∧ (∀ c : Connection, PropagatedTransaction.commit r (some c)
        = (r.commitResult (some c), some c, [RunnerCall.commit (some c)]))
    ∧ (∀ c : Connection, PropagatedTransaction.rollback r (some c)
        = (r.rollbackResult (some c), some c, [RunnerCall.rollback (some c)]))
    ∧ (∀ s : Store, IsolatedTransaction.commit r s
        = (r.commitResult none, s, [RunnerCall.commit none]))
    ∧ (∀ s : Store, IsolatedTransaction.rollback r s
        = (r.rollbackResult none, s, [RunnerCall.rollback none])) :=
  ⟨rfl, rfl, fun _ => rfl, fun _ => rfl, fun _ => rfl, fun _ => rfl⟩

/-- C4 counterexample: with conn1 already bound, a nested run invoked with
conn2 executes its callback with conn2 bound, not with the already-bound
conn1, although the two are distinct: nested reuse of the bound connection
is not performed by run itself. -/
theorem nested_run_binds_argument_counterexample :
    (PropagatedTransaction.run conn2 PropagatedTransaction.connection (some conn1)).1
      = Except.ok (some conn2)
    ∧ conn2 ≠ conn1 :=
  ⟨rfl, by decide⟩

/-- C4 (amended): nested reuse happens through start, not through run:
with a connection bound, start returns exactly that connection with no
runner.start call, so the documented nested idiom (run applied to the
result of start) rebinds the identical connection; the nested invocation
performs no Runner call of its own and makes no commit or rollback
decision, its trace and outcome being exactly those of its callback. -/
theorem nested_start_run_reuses_connection {α : Type} (r : Runner) (lvl : Option String)
    (cb : Eff α) (c : Connection) :
    PropagatedTransaction.start r lvl (some c) = (Except.ok c, some c, [])
    ∧ Eff.bind (PropagatedTransaction.start r lvl)
        (fun conn => PropagatedTransaction.run conn cb) (some c)
      = ((cb (some c)).1, some c, (cb (some c)).2.2) :=
  ⟨rfl, rfl⟩

/-- C1 counterexample: with no connection bound, run applied to a callback
that succeeds with 42 performs no Runner call at all, in particular zero
commit calls rather than exactly one. -/
theorem run_success_no_commit_counterexample :
    PropagatedTransaction.run conn0 (Eff.pure (42 : Nat)) none = (Except.ok 42, none, [])
    ∧ (PropagatedTransaction.run conn0 (Eff.pure (42 : Nat)) none).2.2.countP
        RunnerCall.isCommit = 0 :=
  ⟨rfl, rfl⟩

/-- C2 counterexample: with no connection bound, run applied to a callback
that fails propagates the original error unchanged and performs no Runner
call at all, in particular zero rollback calls rather than exactly one,
and no composite error is produced. -/
theorem run_failure_no_rollback_counterexample :
    PropagatedTransaction.run conn0 (Eff.throw (JsError.user 7) : Eff Nat) none
      = (Except.error (JsError.user 7), none, []) := rfl

/-- C1 (amended): run itself makes no Runner call; in the documented
success usage, where the callback performs its work and then calls the
controller commit, runner.commit is called exactly once, with exactly the
connection the outermost start obtained from runner.start, the callback
result is returned, and runner.rollback is never called. -/
theorem successScript_commits_once {α : Type} (r : Runner) (lvl : Option String)
    (work : Store → Except JsError α) (v : α) (c : Connection)
    (hstart : r.startResult (some (lvl.getD PropagatedTransaction.defaultIsolationLevel))
      = Except.ok c)
    (hwork : work (some c) = Except.ok v)
    (hcommit : r.commitResult (some c) = Except.ok ()) :
    successScript r lvl work none
      = (Except.ok v, none,
         [RunnerCall.start (some (lvl.getD PropagatedTransaction.defaultIsolationLevel)),
          RunnerCall.commit (some c)]) := by
  simp [successScript, PropagatedTransaction.start, PropagatedTransaction.run,
    PropagatedTransaction.commit, PropagatedTransaction.connection, alsGetStore, alsRun,
    userWork, Eff.bind, Eff.pure, Runner.callStart, Runner.callCommit, hstart, hwork, hcommit]

/-- C1 witness: with the all-succeeding concrete runner and work that
resolves with 42, the success script resolves with 42 and its Runner
trace is exactly one start with READ COMMITTED followed by exactly one
commit with the connection returned by start. -/
theorem successScript_commits_once_witness :
    successScript okRunner none work42 none
      = (Except.ok 42, none,
         [RunnerCall.start (some "READ COMMITTED"), RunnerCall.commit (some conn0)]) :=
  successScript_commits_once okRunner none work42 42 conn0 rfl rfl rfl

/-- C2 (amended): run itself performs no Runner call and propagates a
callback failure unchanged; in the documented failure usage, where the
callback catches its failing work, calls the controller rollback and
rethrows, runner.rollback is called exactly once with the connection the
outermost start obtained, runner.commit is never called, and the caller
observes the original error when the rollback succeeds; when the rollback
itself fails its error replaces the original one — the code defines no
composite error (TransactionError only provides NotInContext). -/
theorem failureScript_rolls_back_once {α : Type} (r : Runner) (lvl : Option String)
    (work : Store → Except JsError α) (e : JsError) (c : Connection)
    (hstart : r.startResult (some (lvl.getD PropagatedTransaction.defaultIsolationLevel))
      = Except.ok c)
    (hwork : work (some c) = Except.error e) :
    (r.rollbackResult (some c) = Except.ok () →
      failureScript r lvl work none
        = (Except.error e, none,
           [RunnerCall.start (some (lvl.getD PropagatedTransaction.defaultIsolationLevel)),
            RunnerCall.rollback (some c)]))
    ∧ (∀ e2 : JsError, r.rollbackResult (some c) = Except.error e2 →
      failureScript r lvl work none
        = (Except.error e2, none,
           [RunnerCall.start (some (lvl.getD PropagatedTransaction.defaultIsolationLevel)),
            RunnerCall.rollback (some c)])) := by
  constructor
  · intro hrb
    simp [failureScript, PropagatedTransaction.start, PropagatedTransaction.run,
      PropagatedTransaction.commit, PropagatedTransaction.rollback,
      PropagatedTransaction.connection, alsGetStore, alsRun, userWork, Eff.bind, Eff.pure,
      Eff.throw, Eff.tryCatch, Runner.callStart, Runner.callCommit, Runner.callRollback,
      hstart, hwork, hrb]
  · intro e2 hrb
    simp [failureScript, PropagatedTransaction.start, PropagatedTransaction.run,
      PropagatedTransaction.commit, PropagatedTransaction.rollback,
      PropagatedTransaction.connection, alsGetStore, alsRun, userWork, Eff.bind, Eff.pure,
      Eff.throw, Eff.tryCatch, Runner.callStart, Runner.callCommit, Runner.callRollback,
      hstart, hwork, hrb]

/-- C2 witness: with the all-succeeding concrete runner and work that
rejects with user error 7, the failure script rejects with that same
error and its Runner trace is exactly one start followed by exactly one
rollback with the connection returned by start. -/
theorem failureScript_rolls_back_once_witness :
    failureScript okRunner none workFail none
      = (Except.error (JsError.user 7), none,
         [RunnerCall.start (some "READ COMMITTED"), RunnerCall.rollback (some conn0)]) :=
  (failureScript_rolls_back_once okRunner none workFail (JsError.user 7) conn0 rfl rfl).1 rfl

/-- C8 counterexample: IsolatedTransaction is not a singleton: two
constructor calls (with fresh object identities 1 and 3, runners 10 and
11) yield distinct instances, so the second call does not return the
instance produced by the first. -/
theorem isolated_constructor_not_singleton_counterexample :
    IsolatedTransaction.construct 1 10 none 2 ≠ IsolatedTransaction.construct 3 11 none 4 := by
  decide

/-- C8 (amended): PropagatedTransaction is a process-wide singleton —
once the static instance field is set, every later constructor call
returns the stored instance regardless of its runner and context
arguments, so the second of two consecutive constructions returns the
first instance; IsolatedTransaction has no such field and every
construction yields a fresh instance built from its own arguments. -/
theorem propagated_singleton_isolated_not (i : PropagatedTransactionObj)
    (o1 r1 a1 o2 r2 : Nat) (alsArg : Option Nat) (freshAls : Nat) :
    PropagatedTransaction.construct (some i) o2 r2 alsArg freshAls = (i, some i)
    ∧ PropagatedTransaction.construct none o1 r1 none a1
      = ({ objId := o1, runnerId := r1, alsId := a1 },
         some { objId := o1, runnerId := r1, alsId := a1 })
    ∧ (PropagatedTransaction.construct
        (PropagatedTransaction.construct none o1 r1 none a1).2 o2 r2 alsArg freshAls).1
      = (PropagatedTransaction.construct none o1 r1 none a1).1
    ∧ IsolatedTransaction.construct o1 r1 alsArg freshAls
      = { objId := o1, runnerId := r1, alsId := alsArg.getD freshAls } :=
  ⟨rfl, rfl, rfl, rfl⟩
